import Mathlib

/-!
# Report Query & Update Engine — verification development

A shallow embedding of the report-backend service core
(`src/routes/authRoutes.ts`, `src/models/report.ts`): the in-memory report
record, the version-checked update path (PUT /reports/:id), the attachment
append path (POST /reports/:id/attachment), and the entry-collection query
pipeline with view shaping (GET /reports/:id).

Modelling conventions:
* JavaScript numbers that the handlers treat as integers (`version`, the
  parsed `entries_page` / `entries_size`) are embedded as `Int`
  (`NaN` is out of the model: `parseInt` failure is an absent value).
* JavaScript truthiness tests on numbers (`updates.version && ...`) are
  embedded explicitly: `0` is falsy, every other integer is truthy.
* Optional object fields (`auditLogs?`, `attachments?`) are embedded as
  lists; the handlers' `x = x || []` normalisation makes an absent list
  observationally equal to the empty list.
* `Array.prototype.sort` is stable per the ECMAScript specification; it is
  embedded as a stable sort (`List.insertionSort`), which agrees with any
  stable sort whenever the comparator induces a total preorder (as the
  `priority` comparator does).
* In-place mutation of the stored record is embedded by explicit state
  passing: each handler returns, next to its response, the report record as
  the store holds it after the request.
-/

/-- `Status` from `src/models/report.ts`: `'draft' | 'submitted'`. -/
inductive Status where
  | draft
  | submitted
deriving DecidableEq, Repr

/-- `Priority` from `src/models/report.ts`: `'low' | 'medium' | 'high'`. -/
inductive Priority where
  | low
  | medium
  | high
deriving DecidableEq, Repr

/-- `Entry` from `src/models/report.ts`. -/
structure Entry where
  id : String
  content : String
  createdAt : String
  priority : Priority
deriving DecidableEq, Repr

/-- `Metrics` from `src/models/report.ts`. -/
structure Metrics where
  totalEntries : Nat
  highPriorityEntries : Nat
deriving DecidableEq, Repr

/-- `Attachment` from `src/models/report.ts`. -/
structure Attachment where
  filename : String
  originalName : String
  mimetype : String
  size : Nat
  url : String
deriving DecidableEq, Repr

/-- `Report` from `src/models/report.ts`.  The optional `auditLogs?` and
`attachments?` fields are embedded as lists (see module conventions). -/
structure Report where
  id : String
  title : String
  status : Status
  priority : Priority
  createdAt : String
  updatedAt : String
  version : Int
  entries : List Entry
  metrics : Metrics
  auditLogs : List String
  attachments : List Attachment
deriving DecidableEq, Repr

/-- The parsed body of `PUT /reports/:id` (`updateReportSchema`): all four
fields optional. -/
structure UpdatePatch where
  title : Option String
  status : Option Status
  priority : Option Priority
  version : Option Int
deriving DecidableEq, Repr

/-- The value a `PUT /reports/:id` request produces: either the 409
`VERSION_CONFLICT` body (its `code` and `message` fields) or the updated
report echoed back. -/
inductive PutResponse where
  | conflict (code : String) (message : String)
  | ok (report : Report)
deriving DecidableEq, Repr

/-- Whether a `PutResponse` is the success case. -/
def PutResponse.isOk : PutResponse → Bool
  | .ok _ => true
  | .conflict _ _ => false

/-- The guard `updates.version && updates.version !== report.version` of the
PUT handler.  JavaScript truthiness: an absent `version` is `undefined`
(falsy) and the number `0` is falsy, so in both cases the guard is false and
the version check is skipped. -/
def versionMismatch (report : Report) (updates : UpdatePatch) : Bool :=
  match updates.version with
  | none => false
  | some v => v != 0 && v != report.version

/-- The list `changedFields` accumulated by the PUT handler: a field name is
recorded iff the patch supplies that field and its value differs from the
current one, in source order title, status, priority. -/
def changedFieldsOf (report : Report) (updates : UpdatePatch) : List String :=
  (match updates.title with
   | some t => if t ≠ report.title then ["title"] else []
   | none => []) ++
  (match updates.status with
   | some s => if s ≠ report.status then ["status"] else []
   | none => []) ++
  (match updates.priority with
   | some p => if p ≠ report.priority then ["priority"] else []
   | none => [])

/-- The success path of the PUT handler: apply each supplied-and-differing
field (assigning an equal value is observationally the identity, so each
field becomes the patched value when supplied and the old value otherwise),
set `updatedAt` to now, increment `version` by 1 unconditionally, and append
the audit line `Updated fields: <joined or "none"> at <updatedAt>`
(JavaScript `changedFields.join(', ') || 'none'`: the empty joined string is
falsy). -/
def applyUpdate (report : Report) (updates : UpdatePatch) (now : String) : Report :=
  let changed := changedFieldsOf report updates
  let joined := String.intercalate ", " changed
  let auditEntry := "Updated fields: " ++ (if joined = "" then "none" else joined) ++ " at " ++ now
  { report with
    title := updates.title.getD report.title
    status := updates.status.getD report.status
    priority := updates.priority.getD report.priority
    updatedAt := now
    version := report.version + 1
    auditLogs := report.auditLogs ++ [auditEntry] }

/-- The `PUT /reports/:id` handler core (after validation and lookup): on a
version mismatch respond 409 with
`Report version mismatch. Current version is <current>` and leave the stored
record untouched; otherwise apply the update in place and echo the updated
record.  The second component is the stored record after the request. -/
def putReportHandler (report : Report) (updates : UpdatePatch) (now : String) :
    PutResponse × Report :=
  if versionMismatch report updates then
    (.conflict "VERSION_CONFLICT"
       ("Report version mismatch. Current version is " ++ toString report.version),
     report)
  else
    let updated := applyUpdate report updates now
    (.ok updated, updated)

/-- The `POST /reports/:id/attachment` handler core (after lookup and upload):
append the attachment, append an audit line, and do not touch any other
field — in particular neither `version` nor `updatedAt`. -/
def appendAttachment (report : Report) (att : Attachment) (now : String) : Report :=
  { report with
    attachments := report.attachments ++ [att]
    auditLogs := report.auditLogs ++
      ["Uploaded attachment: " ++ att.originalName ++ " at " ++ now] }

/-- A request-level mutation against one stored report: a PUT update or an
attachment append, each with the wall-clock time it runs at. -/
inductive MutationOp where
  | update (patch : UpdatePatch) (now : String)
  | attach (att : Attachment) (now : String)
deriving DecidableEq, Repr

/-- Run a sequence of mutations against a stored report, threading the stored
record through the handlers, and count the successful PUT updates (a 409
conflict leaves the record untouched and is not counted; an attachment append
always succeeds). -/
def runMutations (r : Report) : List MutationOp → Report × Nat
  | [] => (r, 0)
  | MutationOp.update p now :: ms =>
      let res := putReportHandler r p now
      let rest := runMutations res.2 ms
      if res.1.isOk then (rest.1, rest.2 + 1) else (rest.1, rest.2)
  | MutationOp.attach a now :: ms => runMutations (appendAttachment r a now) ms

/-- The `POST /reports` handler core: a fresh report with `version` 1, empty
entries, zero metrics, `createdAt = updatedAt = now`. -/
def createReport (id title : String) (status : Status) (priority : Priority)
    (now : String) : Report :=
  { id := id
    title := title
    status := status
    priority := priority
    createdAt := now
    updatedAt := now
    version := 1
    entries := []
    metrics := { totalEntries := 0, highPriorityEntries := 0 }
    auditLogs := []
    attachments := [] }

/-! ## Entry query pipeline (GET /reports/:id, include=entries) -/

/-- The value of a dynamically accessed entry attribute (`(a as any)[field]`):
a string, a number, or `undefined` for an unknown field. -/
inductive SortKey where
  | str (s : String)
  | num (n : Nat)
  | missing
deriving DecidableEq, Repr

/-- JavaScript `<` on sort keys: strings compare lexicographically, numbers
numerically, and every comparison involving `undefined` (or mixing the two
types, which coerces through `NaN`) is false. -/
def keyLt : SortKey → SortKey → Bool
  | .str a, .str b => a < b
  | .num a, .num b => a < b
  | _, _ => false

/-- Dynamic field access `(a as any)[field]` on an `Entry`: the three string
attributes by name, anything else `undefined`.  (`priority` is listed for
completeness; the comparator overrides it with the ordinal below before any
comparison happens.) -/
def entryField (e : Entry) (field : String) : SortKey :=
  if field = "id" then .str e.id
  else if field = "content" then .str e.content
  else if field = "createdAt" then .str e.createdAt
  else if field = "priority" then .str (match e.priority with
    | .low => "low" | .medium => "medium" | .high => "high")
  else .missing

/-- The `priorityMap` of the sort comparator: `{ low: 1, medium: 2, high: 3 }`. -/
def priorityMap : Priority → Nat
  | .low => 1
  | .medium => 2
  | .high => 3

/-- The sort comparator of the GET handler: look both values up dynamically,
override them with the priority ordinal when the field is `priority`, then
return -1/1 on `<` / `>` with the signs swapped exactly when the order token
is `desc`, and 0 otherwise. -/
def compareEntries (field : String) (order : Option String) (a b : Entry) : Int :=
  let aValue := if field = "priority" then SortKey.num (priorityMap a.priority)
                else entryField a field
  let bValue := if field = "priority" then SortKey.num (priorityMap b.priority)
                else entryField b field
  if keyLt aValue bValue then (if order = some "desc" then 1 else -1)
  else if keyLt bValue aValue then (if order = some "desc" then -1 else 1)
  else 0

/-- The non-strict order induced by the comparator: `a` may stay before `b`
iff the comparator does not demand a swap. -/
def entryLE (field : String) (order : Option String) (a b : Entry) : Prop :=
  compareEntries field order a b ≤ 0

instance (field : String) (order : Option String) : DecidableRel (entryLE field order) :=
  fun a b => inferInstanceAs (Decidable (compareEntries field order a b ≤ 0))

/-- `entries.sort(comparator)`: ECMAScript `Array.prototype.sort` is stable,
embedded as a stable sort. -/
def sortEntries (field : String) (order : Option String) (l : List Entry) : List Entry :=
  l.insertionSort (entryLE field order)

/-- `sortParam.split('_')` destructured as `[field, order]`: the part before
the first underscore and, when present, the part right after it. -/
def parseSortParam (s : String) : String × Option String :=
  match s.splitOn "_" with
  | [] => ("", none)
  | [f] => (f, none)
  | f :: o :: _ => (f, some o)

/-- `parseInt(x) || d`: an unparsable value (`NaN`) is falsy, and so is a
parsed `0`; both fall back to the default. -/
def parseIntOr (x : Option Int) (d : Int) : Int :=
  match x with
  | none => d
  | some v => if v = 0 then d else v

/-- The `entries_pagination` descriptor returned next to the sliced entries. -/
structure Pagination where
  page : Nat
  size : Nat
  totalPages : Nat
  totalEntries : Nat
deriving DecidableEq, Repr

/-- The pagination step of the GET handler: clamp page to at least 1 and size
into [1,100] (`Math.max` / `Math.min`), count the incoming — already filtered
and sorted — collection, take `Math.ceil(totalEntries / validSize)` pages,
and slice `[(validPage-1)*validSize, (validPage-1)*validSize + validSize)`.
The clamped values are positive, so they are carried as naturals. -/
def paginate (entries : List Entry) (page size : Int) : List Entry × Pagination :=
  let validPage := (max page 1).toNat
  let validSize := (min (max size 1) 100).toNat
  let totalEntries := entries.length
  let totalPages := (totalEntries + validSize - 1) / validSize
  let start := (validPage - 1) * validSize
  ((entries.drop start).take validSize,
   { page := validPage
     size := validSize
     totalPages := totalPages
     totalEntries := totalEntries })

/-- The filter step: keep only high-priority entries when requested. -/
def filterEntries (highPriorityOnly : Bool) (l : List Entry) : List Entry :=
  if highPriorityOnly then l.filter (fun e => e.priority = Priority.high) else l

/-- The entry query pipeline of the GET handler: copy the entries, filter,
optionally sort by the `<field>_<order>` request token, then paginate. -/
def entryQueryPipeline (entries : List Entry) (highPriorityOnly : Bool)
    (sortParam : Option String) (page size : Int) : List Entry × Pagination :=
  let filtered := filterEntries highPriorityOnly entries
  let sorted := match sortParam with
    | some sp =>
        let fo := parseSortParam sp
        sortEntries fo.1 fo.2 filtered
    | none => filtered
  paginate sorted page size

/-! ## View projector (GET /reports/:id) -/

/-- The compact-view response body. `highPriorityRate` is a JavaScript
number obtained by exact division here (`ℚ`); the handler guards the
zero-denominator case explicitly. -/
structure CompactView where
  id : String
  title : String
  status : Status
  priority : Priority
  metrics : Metrics
  entryCount : Nat
  highPriorityRate : ℚ
deriving DecidableEq, Repr

/-- The compact branch of the GET handler: `totalEntries` and
`highPriorityEntries` are recomputed from the live entries for `entryCount`
and `highPriorityRate`, but the `metrics` key echoes the stored
`report.metrics` field. -/
def compactView (report : Report) : CompactView :=
  let totalEntries := report.entries.length
  let highPriorityEntries := (report.entries.filter (fun e => e.priority = Priority.high)).length
  let highPriorityRate : ℚ :=
    if totalEntries > 0 then (highPriorityEntries : ℚ) / (totalEntries : ℚ) else 0
  { id := report.id
    title := report.title
    status := report.status
    priority := report.priority
    metrics := report.metrics
    entryCount := totalEntries
    highPriorityRate := highPriorityRate }

/-- Metrics recomputed from a live entries collection — the pure function of
the entries that the specification's §3 invariant describes.  Used to compare
the handler's output against the spec's wording. -/
def liveMetrics (entries : List Entry) : Metrics :=
  { totalEntries := entries.length
    highPriorityEntries := (entries.filter (fun e => e.priority = Priority.high)).length }

/-- The full-view response body: the always-present report fields plus, only
when entry inclusion was requested, the pipeline's slice and descriptor. -/
structure FullView where
  id : String
  title : String
  status : Status
  priority : Priority
  createdAt : String
  updatedAt : String
  version : Int
  metrics : Metrics
  entries : Option (List Entry)
  entries_pagination : Option Pagination
deriving DecidableEq, Repr

/-- A GET response: the compact body or the full/default body. -/
inductive GetResponse where
  | compact (c : CompactView)
  | full (f : FullView)
deriving DecidableEq, Repr

/-- The query-string parameters the GET handler reads, after URL parsing. -/
structure GetQuery where
  view : Option String
  includeQ : Option String
  entries_highPriorityOnly : Option String
  entries_sort : Option String
  entries_page : Option Int
  entries_size : Option Int
deriving DecidableEq, Repr

/-- The `GET /reports/:id` handler core: compact view when `view=compact`;
otherwise the full projection, running the entry query pipeline on a copy
(`[...report.entries]`) of the entries when `include` lists `entries`.  The
second component is the stored record after the request: the handler only
reads it, and the sort mutates the local copy, never the stored sequence. -/
def getReportHandler (report : Report) (q : GetQuery) : GetResponse × Report :=
  if q.view = some "compact" then
    (.compact (compactView report), report)
  else
    let base : FullView :=
      { id := report.id
        title := report.title
        status := report.status
        priority := report.priority
        createdAt := report.createdAt
        updatedAt := report.updatedAt
        version := report.version
        metrics := report.metrics
        entries := none
        entries_pagination := none }
    match q.includeQ with
    | none => (.full base, report)
    | some inc =>
        let fields := (inc.splitOn ",").map (fun f => f.trim)
        if fields.contains "entries" then
          let highPriorityOnly := q.entries_highPriorityOnly = some "true"
          let page := parseIntOr q.entries_page 1
          let size := parseIntOr q.entries_size 10
          let res := entryQueryPipeline report.entries highPriorityOnly q.entries_sort page size
          (.full { base with entries := some res.1, entries_pagination := some res.2 }, report)
        else (.full base, report)

/-! ## Sample values for concrete evaluation -/

/-- A sample entry with a chosen id and priority. -/
def sampleEntry (i : Nat) (p : Priority) : Entry :=
  { id := toString i, content := "entry", createdAt := "2024-01-01", priority := p }

/-- A collection of `n` distinct low-priority entries, in id order. -/
def entriesOfLength (n : Nat) : List Entry :=
  (List.range n).map (fun i => sampleEntry i Priority.low)

/-- A freshly created sample report (version 1, empty entries). -/
def rBase : Report := createReport "r1" "Q1" Status.draft Priority.medium "T0"

/-- A sample report whose stored `metrics` field has drifted from its live
entries: one high-priority entry but stored counts still zero, version 2. -/
def rStale : Report :=
  { rBase with version := 2, entries := [sampleEntry 1 Priority.high] }

/-- A patch that supplies only the version field (or nothing). -/
def patchV (v : Option Int) : UpdatePatch :=
  { title := none, status := none, priority := none, version := v }

/-- A sample attachment. -/
def attSample : Attachment :=
  { filename := "file-1.pdf", originalName := "report.pdf", mimetype := "application/pdf"
    size := 10, url := "/uploads/file-1.pdf" }

/-- Sample entries of each priority, with distinct ids. -/
def eLow : Entry := sampleEntry 10 Priority.low

/-- Sample medium-priority entry. -/
def eMed : Entry := sampleEntry 11 Priority.medium

/-- Sample high-priority entry. -/
def eHigh : Entry := sampleEntry 12 Priority.high

/-! ## Theorems -/

/-- C2 (amended): for every report the compact view returns the **stored**
`metrics` field unchanged, while `entryCount` equals the live entry count
(the recomputed `totalEntries`) and `highPriorityRate` is recomputed from the
live entries with the zero-denominator guard. -/
theorem c2_compact_stored_metrics (r : Report) :
    (compactView r).metrics = r.metrics ∧
    (compactView r).entryCount = (liveMetrics r.entries).totalEntries ∧
    (compactView r).highPriorityRate =
      (if 0 < (liveMetrics r.entries).totalEntries then
        ((liveMetrics r.entries).highPriorityEntries : ℚ) /
          ((liveMetrics r.entries).totalEntries : ℚ)
       else 0) :=
  ⟨rfl, rfl, rfl⟩

/-- C2 counterexample: on a report whose stored metrics have drifted from its
entries, the compact view's `metrics` equals the stored field and differs
from the metrics recomputed from the live entries, while `entryCount` is the
recomputed count. -/
theorem c2_counterexample :
    (compactView rStale).metrics ≠ liveMetrics rStale.entries ∧
    (compactView rStale).metrics = rStale.metrics ∧
    (compactView rStale).entryCount = 1 ∧
    rStale.metrics = { totalEntries := 0, highPriorityEntries := 0 } ∧
    liveMetrics rStale.entries = { totalEntries := 1, highPriorityEntries := 1 } := by
  refine ⟨by decide, rfl, by decide, by decide, by decide⟩

/-- C6: when the patch carries no `version` field the check is skipped and
the update succeeds unconditionally, whatever the report's current version. -/
theorem c6_force_update (r : Report) (patch : UpdatePatch) (now : String)
    (hv : patch.version = none) :
    ∃ u, putReportHandler r patch now = (.ok u, u) := by
  have hm : versionMismatch r patch = false := by simp [versionMismatch, hv]
  exact ⟨applyUpdate r patch now, by simp [putReportHandler, hm]⟩

/-- C6 witness: a version-less patch against the version-2 report succeeds. -/
theorem c6_witness :
    ∃ u, putReportHandler rStale (patchV none) "T1" = (.ok u, u) :=
  c6_force_update rStale (patchV none) "T1" rfl

/-- C10: a patch with `version = 0` skips the version check (0 is falsy), so
the update succeeds even though 0 differs from the report's current version. -/
theorem c10_zero_version (r : Report) (patch : UpdatePatch) (now : String)
    (hv : patch.version = some 0) (hr : r.version ≠ 0) :
    (∃ u, putReportHandler r patch now = (.ok u, u)) ∧ (0 : Int) ≠ r.version := by
  have hm : versionMismatch r patch = false := by simp [versionMismatch, hv]
  exact ⟨⟨applyUpdate r patch now, by simp [putReportHandler, hm]⟩, fun h => hr h.symm⟩

/-- C10 witness: `version = 0` against the version-2 report succeeds. -/
theorem c10_witness :
    (∃ u, putReportHandler rStale (patchV (some 0)) "T1" = (.ok u, u)) ∧
    (0 : Int) ≠ rStale.version :=
  c10_zero_version rStale (patchV (some 0)) "T1" rfl (by decide)

/-- C9: the GET handler (compact or full, with or without the entry query
pipeline) never mutates the stored report: the record after the request is
the record before it. -/
theorem c9_get_read_only (r : Report) (q : GetQuery) :
    (getReportHandler r q).2 = r := by
  unfold getReportHandler
  split
  · rfl
  · cases q.includeQ with
    | none => rfl
    | some inc =>
        dsimp only
        split
        · rfl
        · rfl

/-- C1 (amended): when the patch's `version` is present, **nonzero**, and
differs from the report's current version, the update fails with the 409
`VERSION_CONFLICT` response whose message reports the current version number,
and the stored record is returned unchanged — no field is modified. -/
theorem c1_version_conflict (r : Report) (patch : UpdatePatch) (v : Int) (now : String)
    (hv : patch.version = some v) (h0 : v ≠ 0) (hne : v ≠ r.version) :
    putReportHandler r patch now =
      (.conflict "VERSION_CONFLICT"
        ("Report version mismatch. Current version is " ++ toString r.version), r) := by
  have hm : versionMismatch r patch = true := by
    simp [versionMismatch, hv, h0, hne]
  simp [putReportHandler, hm]

/-- C1 witness: against the version-2 report, a patch with version 5 yields
the conflict response and leaves the record untouched. -/
theorem c1_witness :
    putReportHandler rStale (patchV (some 5)) "T1" =
      (.conflict "VERSION_CONFLICT"
        ("Report version mismatch. Current version is " ++ toString rStale.version), rStale) :=
  c1_version_conflict rStale (patchV (some 5)) 5 "T1" rfl (by decide) (by decide)

/-- C1 counterexample: the claim as stated fails twice on the code.
A submitted version 0 is present and differs from the current version 2, yet
the update succeeds (JavaScript truthiness skips the check); and two
different stale submitted versions (5 and 7) produce identical conflict
responses, so the submitted version number is not reported — only the
current one is. -/
theorem c1_counterexample :
    (putReportHandler rStale (patchV (some 0)) "T1").1.isOk = true ∧
    (0 : Int) ≠ rStale.version ∧
    putReportHandler rStale (patchV (some 5)) "T1" =
      putReportHandler rStale (patchV (some 7)) "T1" ∧
    (5 : Int) ≠ 7 := by
  refine ⟨by decide, by decide, by decide, by decide⟩

/-- C5: a successful update whose patch changes no field (every supplied
field equals the current value, or none is supplied) still increments
`version` by exactly 1, sets `updatedAt` to now, and appends the audit line
with the explicit `none` marker. -/
theorem c5_noop_update (r : Report) (patch : UpdatePatch) (now : String)
    (ht : patch.title = none ∨ patch.title = some r.title)
    (hs : patch.status = none ∨ patch.status = some r.status)
    (hp : patch.priority = none ∨ patch.priority = some r.priority)
    (hok : (putReportHandler r patch now).1.isOk = true) :
    ∃ u, putReportHandler r patch now = (.ok u, u) ∧
      u.version = r.version + 1 ∧ u.updatedAt = now ∧
      u.auditLogs = r.auditLogs ++ ["Updated fields: none at " ++ now] := by
  have hm : versionMismatch r patch = false := by
    by_contra hcon
    rw [Bool.not_eq_false] at hcon
    simp [putReportHandler, hcon, PutResponse.isOk] at hok
  have hch : changedFieldsOf r patch = [] := by
    rcases ht with h1 | h1 <;> rcases hs with h2 | h2 <;> rcases hp with h3 | h3 <;>
      simp [changedFieldsOf, h1, h2, h3]
  refine ⟨applyUpdate r patch now, by simp [putReportHandler, hm], rfl, rfl, ?_⟩
  simp [applyUpdate, hch]
  rfl

/-- C5 witness: the empty patch against a fresh report succeeds, bumps the
version from 1 to 2, and logs the `none` marker. -/
theorem c5_witness :
    ∃ u, putReportHandler rBase (patchV none) "T1" = (.ok u, u) ∧
      u.version = rBase.version + 1 ∧ u.updatedAt = "T1" ∧
      u.auditLogs = rBase.auditLogs ++ ["Updated fields: none at " ++ "T1"] :=
  c5_noop_update rBase (patchV none) "T1" (Or.inl rfl) (Or.inl rfl) (Or.inl rfl) (by decide)

/-- Helper: a successful PUT leaves the stored record at version + 1 and a
conflict leaves it untouched, so after any mutation sequence the stored
version is the starting version plus the number of successful updates. -/
theorem runMutations_version (ms : List MutationOp) :
    ∀ r : Report, (runMutations r ms).1.version = r.version + (runMutations r ms).2 := by
  induction ms with
  | nil => intro r; simp [runMutations]
  | cons m ms ih =>
      intro r
      cases m with
      | update p now =>
          by_cases hm : versionMismatch r p = true
          · simp [runMutations, putReportHandler, hm, PutResponse.isOk, ih]
          · rw [Bool.not_eq_true] at hm
            simp only [runMutations, putReportHandler, hm, if_false, Bool.false_eq_true,
              PutResponse.isOk, if_true]
            rw [ih]
            simp [applyUpdate]
            ring
      | attach a now =>
          simp only [runMutations]
          rw [ih]
          simp [appendAttachment]

/-- The record a successful no-conflict PUT against the fresh report leaves
behind (used as the concrete success witness below). -/
def uC7 : Report := applyUpdate rBase (patchV none) "T1"

/-- C7 (amended): a successful Versioned Mutator update advances `updatedAt`
to now and increments `version` by exactly 1, but an attachment append
modifies neither `version` nor `updatedAt`; consequently, after any mutation
sequence against a freshly created report, `version` equals 1 plus the number
of successful updates — attachment appends excluded. -/
theorem c7_version_counter (r : Report) (patch : UpdatePatch) (att : Attachment)
    (now : String) (u : Report) (ms : List MutationOp)
    (id title : String) (st : Status) (pr : Priority) :
    ((putReportHandler r patch now).1 = .ok u →
      u.version = r.version + 1 ∧ u.updatedAt = now) ∧
    ((appendAttachment r att now).version = r.version ∧
     (appendAttachment r att now).updatedAt = r.updatedAt) ∧
    (runMutations (createReport id title st pr now) ms).1.version =
      1 + ((runMutations (createReport id title st pr now) ms).2 : Int) := by
  refine ⟨?_, ⟨rfl, rfl⟩, ?_⟩
  · intro hok
    by_cases hm : versionMismatch r patch = true
    · simp [putReportHandler, hm] at hok
    · rw [Bool.not_eq_true] at hm
      simp only [putReportHandler, hm, Bool.false_eq_true, if_false] at hok
      cases hok
      exact ⟨by simp [applyUpdate], rfl⟩
  · rw [runMutations_version ms (createReport id title st pr now)]
    simp [createReport]

/-- C7 witness: a concrete successful update bumps version 1 → 2 and sets
`updatedAt`; a concrete attachment append changes neither; and a sequence of
one attachment append plus one successful update leaves a fresh report at
version 1 + 1. -/
theorem c7_witness :
    (uC7.version = rBase.version + 1 ∧ uC7.updatedAt = "T1") ∧
    ((appendAttachment rBase attSample "T1").version = rBase.version ∧
     (appendAttachment rBase attSample "T1").updatedAt = rBase.updatedAt) ∧
    (runMutations (createReport "r1" "Q1" Status.draft Priority.medium "T1")
        [MutationOp.attach attSample "T2", MutationOp.update (patchV none) "T3"]).1.version =
      1 + ((runMutations (createReport "r1" "Q1" Status.draft Priority.medium "T1")
        [MutationOp.attach attSample "T2", MutationOp.update (patchV none) "T3"]).2 : Int) := by
  have h := c7_version_counter rBase (patchV none) attSample "T1" uC7
    [MutationOp.attach attSample "T2", MutationOp.update (patchV none) "T3"]
    "r1" "Q1" Status.draft Priority.medium
  exact ⟨h.1 (by decide), h.2.1, h.2.2⟩

/-- C7 counterexample: an attachment append is a successful mutation, yet on
a fresh version-1 report it leaves `version` at 1 and `updatedAt` at its old
value — it neither advances `updatedAt` nor increments `version`. -/
theorem c7_counterexample :
    (appendAttachment rBase attSample "T9").version = 1 ∧
    (appendAttachment rBase attSample "T9").updatedAt = "T0" ∧
    rBase.version = 1 ∧ rBase.updatedAt = "T0" := by
  refine ⟨by decide, by decide, by decide, by decide⟩

/-- C3: the pagination step clamps `page` to at least 1 and `size` into
[1,100]; `totalEntries` is the incoming (filtered) collection's length and
`totalPages = ⌈totalEntries / size⌉`; the slice is
`[(page-1)*size, (page-1)*size + size)` and is empty when the offset reaches
the length; the descriptor of the full pipeline is computed on the filtered
collection; and 25 entries with page 2 and size 10 yield entries[10:20],
3 pages, 25 total. -/
theorem c3_pagination (l : List Entry) (page size : Int) (hp : Bool) (sp : Option String) :
    ((paginate l page size).2.page = (max page 1).toNat ∧
     (paginate l page size).2.size = (min (max size 1) 100).toNat ∧
     1 ≤ (paginate l page size).2.page ∧
     1 ≤ (paginate l page size).2.size ∧ (paginate l page size).2.size ≤ 100 ∧
     (paginate l page size).2.totalEntries = l.length ∧
     (paginate l page size).2.totalPages =
       (paginate l page size).2.totalEntries ⌈/⌉ (paginate l page size).2.size ∧
     (paginate l page size).1 =
       (l.drop (((paginate l page size).2.page - 1) * (paginate l page size).2.size)).take
         (paginate l page size).2.size ∧
     (l.length ≤ ((paginate l page size).2.page - 1) * (paginate l page size).2.size →
       (paginate l page size).1 = [])) ∧
    (entryQueryPipeline l hp sp page size).2.totalEntries = (filterEntries hp l).length ∧
    (l.length = 25 →
      entryQueryPipeline l false none 2 10 =
        ((l.drop 10).take 10,
         { page := 2, size := 10, totalPages := 3, totalEntries := 25 })) := by
  refine ⟨⟨rfl, rfl, ?_, ?_, ?_, rfl, ?_, rfl, ?_⟩, ?_, ?_⟩
  · simp only [paginate]
    omega
  · simp only [paginate]
    omega
  · simp only [paginate]
    omega
  · simp only [paginate]
    rw [Nat.ceilDiv_eq_add_pred_div]
  · intro h
    simp only [paginate] at h ⊢
    rw [List.drop_eq_nil_iff.mpr h, List.take_nil]
  · cases sp with
    | none => rfl
    | some s =>
        simp only [entryQueryPipeline, paginate, sortEntries]
        rw [List.length_insertionSort]
  · intro h25
    have h2 : (2 : Int).toNat = 2 := rfl
    have hten : (10 : Int).toNat = 10 := rfl
    simp only [entryQueryPipeline, filterEntries, paginate, sortEntries, h25,
      Bool.false_eq_true, if_false, h2, hten]
    norm_num
    exact ⟨rfl, rfl, rfl, rfl⟩

/-- C3 witness: the 25-entry scenario evaluated on a concrete collection. -/
theorem c3_witness :
    entryQueryPipeline (entriesOfLength 25) false none 2 10 =
      (((entriesOfLength 25).drop 10).take 10,
       { page := 2, size := 10, totalPages := 3, totalEntries := 25 }) :=
  (c3_pagination (entriesOfLength 25) 2 10 false none).2.2 (by decide)

/-- C8 (amended): the pipeline run with size 100, page 1, no filter and no
sort returns the full collection in its original order — provided the
collection has at most 100 entries (the slice caps the result at 100). -/
theorem c8_identity_pipeline (l : List Entry) (h : l.length ≤ 100) :
    (entryQueryPipeline l false none 1 100).1 = l := by
  simp only [entryQueryPipeline, filterEntries, paginate, Bool.false_eq_true, if_false]
  norm_num
  exact h

/-- C8 witness: a concrete 3-entry collection round-trips unchanged. -/
theorem c8_witness :
    (entryQueryPipeline (entriesOfLength 3) false none 1 100).1 = entriesOfLength 3 :=
  c8_identity_pipeline (entriesOfLength 3) (by decide)

/-- C8 counterexample: on a 101-entry collection the pipeline with size 100
and page 1 returns only the first 100 entries, not the full collection. -/
theorem c8_counterexample :
    (entryQueryPipeline (entriesOfLength 101) false none 1 100).1 ≠ entriesOfLength 101 ∧
    ((entryQueryPipeline (entriesOfLength 101) false none 1 100).1).length = 100 ∧
    (entriesOfLength 101).length = 101 := by
  have h100 : ((entryQueryPipeline (entriesOfLength 101) false none 1 100).1).length = 100 := by
    simp [entryQueryPipeline, filterEntries, paginate, entriesOfLength]
  have h101 : (entriesOfLength 101).length = 101 := by
    simp [entriesOfLength]
  refine ⟨fun h => ?_, h100, h101⟩
  rw [h, h101] at h100
  exact absurd h100 (by decide)

/-- Helper: on the `priority` field the comparator reduces to a three-way
comparison of the ordinals `low=1, medium=2, high=3`. -/
theorem compareEntries_priority (o : Option String) (a b : Entry) :
    compareEntries "priority" o a b =
      (if priorityMap a.priority < priorityMap b.priority then
        (if o = some "desc" then 1 else -1)
       else if priorityMap b.priority < priorityMap a.priority then
        (if o = some "desc" then -1 else 1)
       else 0) := by
  simp [compareEntries, keyLt]

/-- Helper: with any order token other than `desc` the induced order is the
ascending ordinal order. -/
theorem entryLE_priority_asc {o : Option String} (h : o ≠ some "desc") (a b : Entry) :
    entryLE "priority" o a b ↔ priorityMap a.priority ≤ priorityMap b.priority := by
  unfold entryLE
  rw [compareEntries_priority]
  simp only [h, if_false]
  rcases Nat.lt_trichotomy (priorityMap a.priority) (priorityMap b.priority) with hlt | heq | hgt
  · rw [if_pos hlt]
    simp [Nat.le_of_lt hlt]
  · rw [heq]
    simp
  · rw [if_neg (Nat.lt_asymm hgt), if_pos hgt]
    simp [Nat.not_le.mpr hgt]

/-- Helper: with the `desc` token the induced order is the descending
ordinal order. -/
theorem entryLE_priority_desc (a b : Entry) :
    entryLE "priority" (some "desc") a b ↔
      priorityMap b.priority ≤ priorityMap a.priority := by
  unfold entryLE
  rw [compareEntries_priority]
  simp only [if_pos rfl]
  rcases Nat.lt_trichotomy (priorityMap a.priority) (priorityMap b.priority) with hlt | heq | hgt
  · rw [if_pos hlt]
    simp [Nat.not_le.mpr hlt]
  · rw [heq]
    simp
  · rw [if_neg (Nat.lt_asymm hgt), if_pos hgt]
    simp [Nat.le_of_lt hgt]

/-- Helper: entries of equal priority are ties — the comparator returns 0 —
so either may stay before the other under any order token. -/
theorem entryLE_of_priority_eq (o : Option String) {a b : Entry}
    (h : a.priority = b.priority) : entryLE "priority" o a b := by
  unfold entryLE
  rw [compareEntries_priority, h]
  simp

/-- Helper: `orderedInsert` only consults the truth of the relation, so
pointwise-equivalent relations insert identically. -/
theorem orderedInsert_congr {r s : Entry → Entry → Prop}
    [DecidableRel r] [DecidableRel s]
    (h : ∀ a b, r a b ↔ s a b) (x : Entry) (t : List Entry) :
    t.orderedInsert r x = t.orderedInsert s x := by
  induction t with
  | nil => rfl
  | cons y ys ih =>
      by_cases hxy : r x y
      · rw [List.orderedInsert, List.orderedInsert, if_pos hxy, if_pos ((h x y).1 hxy)]
      · rw [List.orderedInsert, List.orderedInsert, if_neg hxy,
          if_neg (fun hs2 => hxy ((h x y).2 hs2)), ih]

/-- Helper: pointwise-equivalent relations sort identically. -/
theorem insertionSort_congr {r s : Entry → Entry → Prop}
    [DecidableRel r] [DecidableRel s]
    (h : ∀ a b, r a b ↔ s a b) (l : List Entry) :
    l.insertionSort r = l.insertionSort s := by
  induction l with
  | nil => rfl
  | cons x xs ih =>
      rw [List.insertionSort, List.insertionSort, ih, orderedInsert_congr h]

/-- Helper: stability on ties — filtering the sorted collection to any one
priority returns exactly the pre-sort filtered subsequence. -/
theorem sortEntries_priority_stable (o : Option String) (p : Priority) (l : List Entry) :
    (sortEntries "priority" o l).filter (fun e => e.priority = p) =
      l.filter (fun e => e.priority = p) := by
  unfold sortEntries
  set pr : Entry → Bool := fun e => decide (e.priority = p) with hpr
  have hmem : ∀ x ∈ l.filter pr, x.priority = p := by
    intro x hx
    have h2 := (List.mem_filter.mp hx).2
    simpa [hpr] using h2
  have hpair : (l.filter pr).Pairwise (entryLE "priority" o) := by
    apply List.pairwise_of_forall_mem_list
    intro x hx y hy
    exact entryLE_of_priority_eq o ((hmem x hx).trans (hmem y hy).symm)
  have hsub : (l.filter pr).Sublist (l.insertionSort (entryLE "priority" o)) :=
    List.sublist_insertionSort hpair (List.filter_sublist l)
  have hself : (l.filter pr).filter pr = l.filter pr :=
    List.filter_eq_self.mpr (fun x hx => (List.mem_filter.mp hx).2)
  have hsubf : (l.filter pr).Sublist ((l.insertionSort (entryLE "priority" o)).filter pr) := by
    have h3 := hsub.filter pr
    rwa [hself] at h3
  have hperm : ((l.insertionSort (entryLE "priority" o)).filter pr).Perm (l.filter pr) :=
    (List.perm_insertionSort (entryLE "priority" o) l).filter pr
  exact (hsubf.eq_of_length hperm.length_eq.symm).symm

/-- C4: sorting by `priority` compares via the ordinal mapping low=1,
medium=2, high=3: any order token other than `desc` sorts exactly as the
absent token does and yields an ascending-ordinal sequence (every low before
every medium before every high); `desc` yields the descending-ordinal
sequence and its comparator is the exact negation of the ascending one; and
ties — equal priorities — keep their pre-sort relative order. -/
theorem c4_priority_sort (l : List Entry) (o : Option String) (a b : Entry) (p : Priority) :
    (o ≠ some "desc" →
      sortEntries "priority" o l = sortEntries "priority" none l ∧
      (sortEntries "priority" o l).Pairwise
        (fun x y => priorityMap x.priority ≤ priorityMap y.priority)) ∧
    (sortEntries "priority" (some "desc") l).Pairwise
      (fun x y => priorityMap y.priority ≤ priorityMap x.priority) ∧
    compareEntries "priority" (some "desc") a b = - compareEntries "priority" none a b ∧
    (sortEntries "priority" o l).filter (fun e => e.priority = p) =
      l.filter (fun e => e.priority = p) := by
  refine ⟨?_, ?_, ?_, sortEntries_priority_stable o p l⟩
  · intro h
    constructor
    · exact insertionSort_congr (fun x y => by
        unfold entryLE
        rw [compareEntries_priority, compareEntries_priority]
        simp [h]) l
    · have tot : IsTotal Entry (entryLE "priority" o) :=
        ⟨fun x y => by
          rw [entryLE_priority_asc h x y, entryLE_priority_asc h y x]
          omega⟩
      have tra : IsTrans Entry (entryLE "priority" o) :=
        ⟨fun x y z hxy hyz => by
          rw [entryLE_priority_asc h] at hxy hyz ⊢
          omega⟩
      have hs := @List.sorted_insertionSort Entry (entryLE "priority" o) _ tot tra l
      exact hs.imp (fun hxy => (entryLE_priority_asc h _ _).1 hxy)
  · have tot : IsTotal Entry (entryLE "priority" (some "desc")) :=
      ⟨fun x y => by
        rw [entryLE_priority_desc x y, entryLE_priority_desc y x]
        omega⟩
    have tra : IsTrans Entry (entryLE "priority" (some "desc")) :=
      ⟨fun x y z hxy hyz => by
        rw [entryLE_priority_desc] at hxy hyz ⊢
        omega⟩
    have hs := @List.sorted_insertionSort Entry (entryLE "priority" (some "desc")) _ tot tra l
    exact hs.imp (fun hxy => (entryLE_priority_desc _ _).1 hxy)
  · rw [compareEntries_priority, compareEntries_priority]
    rcases Nat.lt_trichotomy (priorityMap a.priority) (priorityMap b.priority) with hlt | heq | hgt
    · simp [hlt, Nat.lt_asymm hlt]
    · simp [heq, Nat.lt_irrefl]
    · simp [hgt, Nat.lt_asymm hgt]

/-- C4 witness: the three-priority sample sorted with the `asc` token equals
the default ascending sort, is ascending by ordinal, the `desc` sort is
descending, the `desc` comparator negates the ascending one, and the
low-priority tie subsequence is preserved. -/
theorem c4_witness :
    sortEntries "priority" (some "asc") [eHigh, eLow, eMed] =
      sortEntries "priority" none [eHigh, eLow, eMed] ∧
    (sortEntries "priority" (some "asc") [eHigh, eLow, eMed]).Pairwise
      (fun x y => priorityMap x.priority ≤ priorityMap y.priority) ∧
    (sortEntries "priority" (some "desc") [eHigh, eLow, eMed]).Pairwise
      (fun x y => priorityMap y.priority ≤ priorityMap x.priority) ∧
    compareEntries "priority" (some "desc") eLow eHigh =
      - compareEntries "priority" none eLow eHigh ∧
    (sortEntries "priority" (some "asc") [eHigh, eLow, eMed]).filter
        (fun e => e.priority = Priority.low) =
      [eHigh, eLow, eMed].filter (fun e => e.priority = Priority.low) := by
  have h := c4_priority_sort [eHigh, eLow, eMed] (some "asc") eLow eHigh Priority.low
  have h1 := h.1 (by decide)
  exact ⟨h1.1, h1.2, h.2.1, h.2.2.1, h.2.2.2⟩
